import Mathlib

/-!
# Verification of the emergency-dispatch core (hwi backend)

Shallow embedding of the assignment state machine, candidate scorer,
acceptance-window protocol and change-history log of the repository's
Python backend (`backend/routes/emergency_routes.py`,
`backend/routes/sos_routes.py`, `backend/database.py`,
`backend/models.py`), together with theorems settling the frozen
claims about the natural-language specification.

Conventions of the embedding:
* Timestamps are natural numbers counting seconds (`datetime.utcnow()`
  becomes an explicit `now : Nat` parameter).
* Database integers become `Int`, float quantities used by the scorer
  become exact rationals `ℚ`; the score formulas of the source use only
  values that are exactly representable.
* The per-request database session is replaced by explicit state
  passing: each operation takes the ticket it would load and returns
  the updated ticket together with the list of `TicketUpdate` history
  rows it `db.add`s (the empty list when the source adds none).
* Python string statuses ("Pending", "Pending Assignment", "In
  Progress", "Done", "Cancelled") become the inductive `Status`.
-/

namespace Hwi

/-! ## String helpers: Python `str.lower` containment and `ilike` -/

/-- Boolean prefix test on character lists (Python slice equality). -/
def charsPre : List Char → List Char → Bool
  | [], _ => true
  | _ :: _, [] => false
  | a :: as, b :: bs => a == b && charsPre as bs

/-- Boolean substring test on character lists. -/
def charsSub (needle : List Char) : List Char → Bool
  | [] => charsPre needle []
  | c :: rest => charsPre needle (c :: rest) || charsSub needle rest

/-- Python `needle in haystack` on strings (substring containment),
also the semantics of SQL `ilike "%needle%"` after lowering. -/
def pyInStr (needle haystack : String) : Bool :=
  charsSub needle.data haystack.data

example : pyInStr "medical" "medical emergency" = true := by decide
example : pyInStr "fire" "medical emergency" = false := by decide

/-- ASCII lower-casing of one character (the effect of Python
`str.lower` on the ASCII strings this backend compares; the core
string lowering is not reducible inside proofs, so the character map
is spelled out). -/
def lowerChar (c : Char) : Char :=
  if 'A' ≤ c ∧ c ≤ 'Z' then Char.ofNat (c.toNat + 32) else c

/-- ASCII lower-casing of a string: Python `str.lower`. -/
def lowerStr (s : String) : String := String.mk (s.data.map lowerChar)

example : lowerStr "Medical Emergency" = "medical emergency" := by decide

/-! ## Data model (`backend/database.py`) -/

/-- Ticket lifecycle status. The SQLAlchemy column is a free string with
default "Pending"; the values actually written by the routes are
"Pending", "Pending Assignment", "In Progress", "Done" (and "Cancelled"
is documented). -/
inductive Status
  | pending
  | pendingAssignment
  | inProgress
  | done
  | cancelled
deriving DecidableEq, Repr

/-- The string stored in the database for each status value. -/
def Status.toStr : Status → String
  | .pending => "Pending"
  | .pendingAssignment => "Pending Assignment"
  | .inProgress => "In Progress"
  | .done => "Done"
  | .cancelled => "Cancelled"

/-- `Organization` rows (fields consumed by the scorer and routes). -/
structure Org where
  id : String
  name : String
  type : String
  category : String
  capacity : Int
  current_load : Int
  status : String
deriving DecidableEq, Repr

/-- `Staff` rows (fields consumed by the scorer and routes). -/
structure Staff where
  id : String
  name : String
  role : String
  skills : Option String
  availability : String
  status : String
deriving DecidableEq, Repr

/-- `SOSRequest` rows: the emergency ticket. -/
structure Ticket where
  id : String
  external_id : String
  status : Status
  people : Int
  longitude : ℚ
  latitude : ℚ
  text : String
  place : String
  category : String
  priority : Int
  assigned_to : Option String
  assigned_organization : Option String
  assigned_division : Option String
  notes : Option String
  estimated_completion : Option Nat
  actual_completion : Option Nat
  assignment_time : Option Nat
  accepted_at : Option Nat
  created_at : Nat
  updated_at : Nat
deriving DecidableEq, Repr

/-- `TicketUpdate` rows: one change-history record. -/
structure TicketUpdate where
  ticket_id : String
  updated_by : String
  field_name : String
  old_value : Option String
  new_value : Option String
  update_time : Nat
  notes : Option String
deriving DecidableEq, Repr

/-! ## Candidate scorer (`emergency_routes.py`, `get_smart_assignment`) -/

/-- `distance_score = max(0, 100 - distance * 2)` (line 260). -/
def distance_score (d : ℚ) : ℚ := max 0 (100 - d * 2)

/-- `capacity_score = (org.capacity - org.current_load) / org.capacity * 100`
(line 261). The source divides unguarded; the query filter
`current_load < capacity` keeps zero-capacity organizations (with
nonnegative load) out of the loop, so the division-by-zero case is
unreachable there. -/
def capacity_score (capacity load : Int) : ℚ :=
  ((capacity : ℚ) - (load : ℚ)) / (capacity : ℚ) * 100

/-- `type_match_score = 100 if org.category.lower() in sos.category.lower()
else 50` (line 262). -/
def type_match_score (orgCategory sosCategory : String) : ℚ :=
  if pyInStr (lowerStr orgCategory) (lowerStr sosCategory) then 100 else 50

/-- Loop body of the organization loop (lines 254-264): the composite
score of one organization. All organizations share one distance value
`d` because the source computes every distance from the same constant
coordinates. -/
def orgTotalScore (sosCategory : String) (d : ℚ) (o : Org) : ℚ :=
  distance_score d * 0.4 + capacity_score o.capacity o.current_load * 0.3 +
    type_match_score o.category sosCategory * 0.3

/-- `skills_match_score` of the staff loop (line 293): any
comma-separated skill tag contained in the ticket category. A NULL
skills column reads as the empty string (`staff.skills or ""`). -/
def skills_match_score (skills : Option String) (sosCategory : String) : ℚ :=
  if ((skills.getD "").splitOn ",").any
      (fun sk => pyInStr (lowerStr sk) (lowerStr sosCategory)) then 100 else 50

/-- Loop body of the staff loop (lines 286-295). -/
def staffTotalScore (sosCategory : String) (d : ℚ) (s : Staff) : ℚ :=
  max 0 (100 - d * 3) * 0.6 + skills_match_score s.skills sosCategory * 0.4

/-- The best-candidate selection loop shared by the scorer's loops:
start from `(None, 0)` and replace the best on a strictly greater
score (`if total_score > best_score`). -/
def selectBest {α : Type} (score : α → ℚ) (l : List α) : Option α × ℚ :=
  l.foldl (fun acc o => if acc.2 < score o then (some o, score o) else acc)
    (none, 0)

/-- Query filter of the organization loop (lines 246-249):
`status == "Active"` and `current_load < capacity`. -/
def orgFilter (orgs : List Org) : List Org :=
  orgs.filter (fun o => o.status == "Active" && decide (o.current_load < o.capacity))

/-- Query filter of the staff loop (lines 271-279): active, available,
and a skills `ilike` filter chosen from the ticket category. -/
def smartStaffFilter (sosCategory : String) (staffPool : List Staff) : List Staff :=
  let base := staffPool.filter
    (fun s => s.status == "Active" && s.availability == "Available")
  if lowerStr sosCategory ∈ ["medical", "medical emergency"] then
    base.filter (fun s => pyInStr "medical" (lowerStr (s.skills.getD "")))
  else if lowerStr sosCategory ∈ ["rescue", "needs rescue", "fire"] then
    base.filter (fun s => pyInStr "rescue" (lowerStr (s.skills.getD "")))
  else base

/-- Best organization and its score (lines 246-268). -/
def get_best_org (sosCategory : String) (d : ℚ) (orgs : List Org) :
    Option Org × ℚ :=
  selectBest (orgTotalScore sosCategory d) (orgFilter orgs)

/-- Best staff member and score (lines 271-299). -/
def get_best_staff (sosCategory : String) (d : ℚ) (staffPool : List Staff) :
    Option Staff × ℚ :=
  selectBest (staffTotalScore sosCategory d) (smartStaffFilter sosCategory staffPool)

/-- Category containment gives 100, otherwise 50. -/
lemma type_match_score_of_true {o s : String}
    (h : pyInStr (lowerStr o) (lowerStr s) = true) : type_match_score o s = 100 := by
  simp [type_match_score, h]

/-- Category non-containment gives 50. -/
lemma type_match_score_of_false {o s : String}
    (h : pyInStr (lowerStr o) (lowerStr s) = false) : type_match_score o s = 50 := by
  simp [type_match_score, h]

/-! ## State-machine operations (`emergency_routes.py`, `sos_routes.py`) -/

/-- Errors raised by `accept_assignment` after the ticket is found,
identified by their HTTP detail message:
"Organization not assigned to this emergency" (`mismatchedAssignee`),
"Emergency not in pending assignment status" (`invalidState`),
"Acceptance window expired" (`windowExpired`). -/
inductive AcceptError
  | mismatchedAssignee
  | invalidState
  | windowExpired
deriving DecidableEq, Repr

/-- Error raised by `reject_assignment` after the ticket is found:
the source checks only the organization, never the status. -/
inductive RejectError
  | mismatchedAssignee
deriving DecidableEq, Repr

/-- `accept_assignment` (`emergency_routes.py` lines 402-444): the
organization check precedes the status check; the 300-second window is
checked only when `assignment_time` is set. On success the ticket moves
to In Progress; no `TicketUpdate` row is added (second component `[]`). -/
def accept_assignment (t : Ticket) (orgId : Option String)
    (estCompletion : Option Nat) (now : Nat) :
    Except AcceptError (Ticket × List TicketUpdate) :=
  if t.assigned_organization ≠ orgId then .error .mismatchedAssignee
  else if t.status ≠ Status.pendingAssignment then .error .invalidState
  else
    match t.assignment_time with
    | some t0 =>
        if (now : Int) - (t0 : Int) > 300 then .error .windowExpired
        else .ok ({ t with
          status := Status.inProgress,
          estimated_completion := estCompletion,
          accepted_at := some now,
          updated_at := now }, [])
    | none => .ok ({ t with
          status := Status.inProgress,
          estimated_completion := estCompletion,
          accepted_at := some now,
          updated_at := now }, [])

/-- `reject_assignment` (`emergency_routes.py` lines 446-487): only the
organization is checked; on success all assigned fields and the
assignment time are cleared, the status returns to Pending, and no
`TicketUpdate` row is added. (The re-proposal it schedules is
`reassign_to_next_best_team`, modelled separately.) -/
def reject_assignment (t : Ticket) (orgId : Option String) (now : Nat) :
    Except RejectError (Ticket × List TicketUpdate) :=
  if t.assigned_organization ≠ orgId then .error .mismatchedAssignee
  else .ok ({ t with
      status := Status.pending,
      assigned_organization := none,
      assigned_to := none,
      assigned_division := none,
      assignment_time := none,
      updated_at := now }, [])

/-- `assign_emergency` (`emergency_routes.py` lines 356-400), the
Propose operation: unconditionally installs the given assignment,
moves the ticket to Pending Assignment, records the assignment time,
and starts the 300-second timer. No `TicketUpdate` row is added. -/
def assign_emergency (t : Ticket) (orgId staffId divId : Option String)
    (now : Nat) : Ticket × List TicketUpdate :=
  ({ t with
      assigned_organization := orgId,
      assigned_to := staffId,
      assigned_division := divId,
      status := Status.pendingAssignment,
      assignment_time := some now,
      updated_at := now }, [])

/-- `reassign_to_next_best_team` (`emergency_routes.py` lines 38-61):
run the scorer; when it recommends an organization, assign it (and the
recommended staff member, if any) and set the status directly to
In Progress; otherwise leave the ticket unchanged. No `TicketUpdate`
row is added in either case. `d` is the shared haversine distance the
source computes from the ticket's coordinates. -/
def reassign_to_next_best_team (t : Ticket) (d : ℚ) (orgs : List Org)
    (staffPool : List Staff) (now : Nat) : Ticket × List TicketUpdate :=
  match (get_best_org t.category d orgs).1 with
  | some o =>
      ({ t with
          assigned_organization := some o.id,
          assigned_to := ((get_best_staff t.category d staffPool).1).map Staff.id,
          status := Status.inProgress,
          updated_at := now }, [])
  | none => (t, [])

/-- `auto_reassign_emergency` (`emergency_routes.py` lines 28-36), the
timer callback: after the 300-second sleep it reloads the ticket
(`none` when deleted) and reassigns only when the status equals
"Pending" — there is no epoch parameter anywhere in the source. -/
def auto_reassign_emergency (t? : Option Ticket) (d : ℚ) (orgs : List Org)
    (staffPool : List Staff) (now : Nat) : Option Ticket × List TicketUpdate :=
  match t? with
  | none => (none, [])
  | some t =>
      if t.status = Status.pending then
        let r := reassign_to_next_best_team t d orgs staffPool now
        (some r.1, r.2)
      else (some t, [])

/-- Rejection followed by the immediately scheduled background
reassignment (`reject_assignment` line 476 adds
`reassign_to_next_best_team` as a background task with no delay). -/
def reject_then_reassign (t : Ticket) (orgId : Option String) (d : ℚ)
    (orgs : List Org) (staffPool : List Staff) (now : Nat) :
    Except RejectError (Ticket × List TicketUpdate) :=
  (reject_assignment t orgId now).map fun r =>
    let r2 := reassign_to_next_best_team r.1 d orgs staffPool now
    (r2.1, r.2 ++ r2.2)

/-! ## Ticket creation (`sos_routes.py`, `create_sos_request`) -/

/-- `SOSRequestCreate` request body (`models.py` lines 92-101). -/
structure SOSCreate where
  external_id : String
  people : Int
  longitude : ℚ
  latitude : ℚ
  text : String
  place : String
  category : String
deriving DecidableEq, Repr

/-- Pydantic field constraints of `SOSRequestBase` (`models.py` lines
92-98): `people ≥ 1`, `longitude ∈ [-180, 180]`, `latitude ∈ [-90, 90]`.
A request violating them is rejected with a validation error; no value
is clamped. -/
def sosRequestBaseValid (people : Int) (longitude latitude : ℚ) : Bool :=
  decide (1 ≤ people) && decide (-180 ≤ longitude) && decide (longitude ≤ 180)
    && decide (-90 ≤ latitude) && decide (latitude ≤ 90)

/-- Priority classification at creation (`sos_routes.py` lines 98-105). -/
def computePriority (category : String) (people : Int) : Int :=
  if lowerStr category ∈ ["needs rescue", "medical emergency", "fire"] then 5
  else if lowerStr category ∈ ["food", "water", "shelter"] then 3
  else if people > 10 then 4
  else 1

/-- Loop body of the nearest-candidate loops (`sos_routes.py` lines
38-46 and 79-87): keep the candidate with the strictly smallest
distance; the accumulator's second component is the running minimum
(`none` = `float('inf')`). Every candidate uses the same constant
coordinates, so all share one distance `d`. -/
def nearestStep {α : Type} (d : ℚ) (acc : Option α × Option ℚ) (o : α) :
    Option α × Option ℚ :=
  match acc.2 with
  | none => (some o, some d)
  | some m => if d < m then (some o, some d) else acc

/-- `find_nearest_organization` (`sos_routes.py` lines 28-48): loop over
active organizations keeping the strictly nearest. -/
def find_nearest_organization (d : ℚ) (orgs : List Org) : Option Org :=
  ((orgs.filter (fun o => o.status == "Active")).foldl (nearestStep d)
    ((none : Option Org), (none : Option ℚ))).1

/-- Staff filter of `find_nearest_staff` (`sos_routes.py` lines 50-69).
Note its rescue branch matches "needs rescue" and "fire emergency"
(not "fire", unlike the smart-assignment filter). -/
def createStaffFilter (category : String) (staffPool : List Staff) :
    List Staff :=
  if lowerStr category ∈ ["medical emergency", "medical"] then
    staffPool.filter (fun s => s.status == "Active"
      && s.availability == "Available"
      && pyInStr "medical" (lowerStr (s.skills.getD "")))
  else if lowerStr category ∈ ["needs rescue", "fire emergency"] then
    staffPool.filter (fun s => s.status == "Active"
      && s.availability == "Available"
      && pyInStr "rescue" (lowerStr (s.skills.getD "")))
  else
    staffPool.filter (fun s => s.status == "Active"
      && s.availability == "Available")

/-- `find_nearest_staff` (`sos_routes.py` lines 50-89): same
constant-distance loop over the filtered staff. -/
def find_nearest_staff (d : ℚ) (category : String)
    (staffPool : List Staff) : Option Staff :=
  ((createStaffFilter category staffPool).foldl (nearestStep d)
    ((none : Option Staff), (none : Option ℚ))).1

/-- `create_sos_request` (`sos_routes.py` lines 91-144): compute the
priority, find the nearest organization and staff, store the ticket
with the database defaults (status "Pending", no division, no
timestamps of the acceptance protocol) and, when an organization or a
staff member was found, add one "initial_assignment" history row. -/
def create_sos_request (data : SOSCreate) (d : ℚ) (orgs : List Org)
    (staffPool : List Staff) (newId : String) (now : Nat) :
    Ticket × List TicketUpdate :=
  let priority := computePriority data.category data.people
  let nearestOrg := find_nearest_organization d orgs
  let nearestStaff := find_nearest_staff d data.category staffPool
  let t : Ticket := {
    id := newId,
    external_id := data.external_id,
    status := Status.pending,
    people := data.people,
    longitude := data.longitude,
    latitude := data.latitude,
    text := data.text,
    place := data.place,
    category := data.category.trim,
    priority := priority,
    assigned_to := nearestStaff.map Staff.id,
    assigned_organization := nearestOrg.map Org.id,
    assigned_division := none,
    notes := none,
    estimated_completion := none,
    actual_completion := none,
    assignment_time := none,
    accepted_at := none,
    created_at := now,
    updated_at := now }
  let recs : List TicketUpdate :=
    if nearestOrg.isSome || nearestStaff.isSome then
      [{ ticket_id := newId,
         updated_by := (nearestStaff.map Staff.id).getD "system",
         field_name := "initial_assignment",
         old_value := none,
         new_value := some ("Assigned to "
           ++ ((nearestOrg.map Org.name).getD "No org") ++ " - "
           ++ ((nearestStaff.map Staff.name).getD "No staff")),
         update_time := now,
         notes := some "Automatic assignment based on location and availability" }]
    else []
  (t, recs)

/-! ## Manual edit (`sos_routes.py`, `update_sos_request`) -/

/-- `SOSRequestUpdate` request body (`models.py` lines 103-110); `some`
means the field was supplied. -/
structure SOSRequestUpdate where
  status : Option Status := none
  priority : Option Int := none
  assigned_to : Option String := none
  assigned_organization : Option String := none
  assigned_division : Option String := none
  notes : Option String := none
  estimated_completion : Option Nat := none
deriving DecidableEq, Repr

/-- `update_sos_request` (`sos_routes.py` lines 231-310): apply the
supplied fields, stamp `updated_at`, set `actual_completion` when the
status first becomes Done, then add one history row per changed field
— but only for the three fields status, assigned_to and notes. -/
def update_sos_request (t : Ticket) (u : SOSRequestUpdate) (now : Nat) :
    Ticket × List TicketUpdate :=
  let oldStatus := t.status
  let oldAssigned := t.assigned_to
  let oldNotes := t.notes
  let t1 : Ticket := { t with
    status := u.status.getD t.status,
    priority := u.priority.getD t.priority,
    assigned_to := match u.assigned_to with
      | some v => some v
      | none => t.assigned_to,
    assigned_organization := match u.assigned_organization with
      | some v => some v
      | none => t.assigned_organization,
    assigned_division := match u.assigned_division with
      | some v => some v
      | none => t.assigned_division,
    notes := match u.notes with
      | some v => some v
      | none => t.notes,
    estimated_completion := match u.estimated_completion with
      | some v => some v
      | none => t.estimated_completion,
    updated_at := now }
  let t2 : Ticket :=
    if t1.status = Status.done ∧ oldStatus ≠ Status.done then
      { t1 with actual_completion := some now }
    else t1
  let recs : List TicketUpdate :=
    (if t2.status ≠ oldStatus then
      [{ ticket_id := t.id, updated_by := "system", field_name := "status",
         old_value := some oldStatus.toStr,
         new_value := some t2.status.toStr,
         update_time := now, notes := u.notes }]
     else []) ++
    (if t2.assigned_to ≠ oldAssigned then
      [{ ticket_id := t.id, updated_by := "system",
         field_name := "assigned_to",
         old_value := oldAssigned, new_value := t2.assigned_to,
         update_time := now, notes := some "Staff assignment updated" }]
     else []) ++
    (if t2.notes ≠ oldNotes then
      [{ ticket_id := t.id, updated_by := "system", field_name := "notes",
         old_value := oldNotes, new_value := t2.notes,
         update_time := now, notes := some "Notes updated" }]
     else [])
  (t2, recs)

/-! ## One-ticket system steps and the history log -/

/-- The mutating operations on one ticket, as invoked through the API
(the timer firing and the post-reject background task included). -/
inductive Op
  | propose (orgId staffId divId : Option String)
  | accept (orgId : Option String) (est : Option Nat)
  | reject (orgId : Option String)
  | timerFire
  | reassignTask
  | manualEdit (u : SOSRequestUpdate)

/-- One system step on (ticket, history): the ticket is replaced by the
operation's result and the history only ever grows by the records the
operation adds; a failed operation leaves both unchanged. -/
def stepSys (cfg : Ticket × List TicketUpdate) (op : Op) (d : ℚ)
    (orgs : List Org) (staffPool : List Staff) (now : Nat) :
    Ticket × List TicketUpdate :=
  match op with
  | .propose orgId staffId divId =>
      let r := assign_emergency cfg.1 orgId staffId divId now
      (r.1, cfg.2 ++ r.2)
  | .accept orgId est =>
      match accept_assignment cfg.1 orgId est now with
      | .ok r => (r.1, cfg.2 ++ r.2)
      | .error _ => cfg
  | .reject orgId =>
      match reject_assignment cfg.1 orgId now with
      | .ok r => (r.1, cfg.2 ++ r.2)
      | .error _ => cfg
  | .timerFire =>
      let r := auto_reassign_emergency (some cfg.1) d orgs staffPool now
      (r.1.getD cfg.1, cfg.2 ++ r.2)
  | .reassignTask =>
      let r := reassign_to_next_best_team cfg.1 d orgs staffPool now
      (r.1, cfg.2 ++ r.2)
  | .manualEdit u =>
      let r := update_sos_request cfg.1 u now
      (r.1, cfg.2 ++ r.2)

/-! ## Geo distance calculator (`calculate_distance`) -/

/-- Marker for the validation failure the spec prescribes for
out-of-range coordinates. -/
inductive GeoValidationError
  | outOfRange
deriving DecidableEq, Repr

/-- `calculate_distance` (`emergency_routes.py` lines 15-26). The
floating-point library routines `math.radians`, `math.sin`, `math.cos`,
`math.asin` and `math.sqrt` are external collaborators and appear as
parameters. The body performs no validation whatsoever: for every
input, in particular for out-of-range coordinates, it unconditionally
returns a computed value (`Except.ok`), never an error. -/
def calculate_distance (radiansF sinF cosF asinF sqrtF : ℚ → ℚ)
    (lat1 lon1 lat2 lon2 : ℚ) : Except GeoValidationError ℚ :=
  let R : ℚ := 6371
  let lat1r := radiansF lat1
  let lon1r := radiansF lon1
  let lat2r := radiansF lat2
  let lon2r := radiansF lon2
  let dlat := lat2r - lat1r
  let dlon := lon2r - lon1r
  let a := sinF (dlat / 2) ^ 2 + cosF lat1r * cosF lat2r * sinF (dlon / 2) ^ 2
  let c := 2 * asinF (sqrtF a)
  Except.ok (R * c)

/-- Boolean success test for `Except` results. -/
def isOkE {ε α : Type} : Except ε α → Bool
  | .ok _ => true
  | .error _ => false

/-! ## Concrete fixtures used by witnesses and counterexamples -/

/-- A freshly created ticket that was never proposed to anyone. -/
def tNew : Ticket :=
  { id := "t1", external_id := "e1", status := Status.pending, people := 2,
    longitude := 72, latitude := 19, text := "help", place := "Mumbai",
    category := "Medical Emergency", priority := 5, assigned_to := none,
    assigned_organization := none, assigned_division := none, notes := none,
    estimated_completion := none, actual_completion := none,
    assignment_time := none, accepted_at := none, created_at := 0,
    updated_at := 0 }

/-- A ticket sitting in the acceptance window: proposed to "org1" at
time 0, still Pending Assignment. -/
def tPA : Ticket :=
  { tNew with
      status := Status.pendingAssignment,
      assigned_organization := some "org1", assigned_to := some "s1",
      assignment_time := some 0 }

/-- A ticket already accepted and in progress by "org1". -/
def tIP : Ticket :=
  { tNew with
      status := Status.inProgress,
      assigned_organization := some "org1", assigned_to := some "s1",
      accepted_at := some 10 }

/-- The accepted form of `tPA` produced by `accept_assignment` at time
100 with estimated completion 500. -/
def tAcc : Ticket :=
  { tPA with
      status := Status.inProgress, estimated_completion := some 500,
      accepted_at := some 100, updated_at := 100 }

/-- An active relief organization with free capacity. -/
def demoOrg : Org :=
  ⟨"org2", "Relief Corp", "NGO", "Relief", 50, 0, "Active"⟩

/-- The scenario organization of the spec's end-to-end test: capacity
100, load 20, category "Medical". -/
def medOrg : Org :=
  ⟨"org1", "MedCorp", "NGO", "Medical", 100, 20, "Active"⟩

/-- Two organizations with identical scoring attributes; the one with
the greater identifier comes first in the candidate list. -/
def oTieB : Org := ⟨"b", "TeamB", "NGO", "Relief", 10, 0, "Active"⟩

/-- Tie partner of `oTieB` with the smaller identifier. -/
def oTieA : Org := ⟨"a", "TeamA", "NGO", "Relief", 10, 0, "Active"⟩

/-- A creation request used by counterexamples. -/
def demoCreate : SOSCreate :=
  ⟨"e9", 5, 72, 19, "water rising", "Mumbai", "Medical Emergency"⟩

/-! ## Claim C8: priority classification -/

/-- Modelled from the claim's words: the priority classification table
(rescue/medical/fire give 5; food/water/shelter give 3; otherwise 4 when
more than 10 people are affected, else 1; categories matched
case-insensitively). -/
def claimPriority (category : String) (people : Int) : Int :=
  if lowerStr category ∈ ["needs rescue", "medical emergency", "fire"] then 5
  else if lowerStr category ∈ ["food", "water", "shelter"] then 3
  else if people > 10 then 4
  else 1

/-- Claim C8 (confirmed): the priority stored by CreateTicket follows
the claim's classification table exactly: the three critical categories
give 5 regardless of the people count, the three relief categories give
3, and otherwise the priority is 4 above 10 affected people and 1
below. -/
theorem C8_priority_classification :
    (∀ (data : SOSCreate) (d : ℚ) (orgs : List Org) (staffPool : List Staff)
       (newId : String) (now : Nat),
       (create_sos_request data d orgs staffPool newId now).1.priority
         = claimPriority data.category data.people) ∧
    (∀ people : Int, claimPriority "Medical Emergency" people = 5) ∧
    claimPriority "Food" 3 = 3 ∧ claimPriority "Other" 15 = 4 ∧
    claimPriority "Other" 2 = 1 := by
  refine ⟨fun data d orgs staffPool newId now => rfl, fun people => rfl,
    rfl, rfl, rfl⟩

/-! ## Claim C9: distance-score monotonicity -/

/-- Claim C9 counterexample: the claim asserts a strict decrease of the
distanceScore for every pair of increasing distances, but at 60 km and
70 km the score is 0 in both cases. -/
theorem C9_counterexample :
    (60 : ℚ) < 70 ∧ distance_score 60 = 0 ∧ distance_score 70 = 0 := by
  refine ⟨by norm_num, ?_, ?_⟩
  · show max 0 (100 - 60 * 2) = 0
    rw [max_eq_left (by norm_num)]
  · show max 0 (100 - 70 * 2) = 0
    rw [max_eq_left (by norm_num)]

/-- Claim C9 (amended): the distanceScore `max(0, 100 − 2·d)` strictly
decreases with distance only while the smaller distance is below 50 km;
from 50 km on it is constantly 0; at distance 0 it is exactly 100. -/
theorem C9_distance_score_monotonicity (d1 d2 : ℚ) (h12 : d1 < d2) :
    (d1 < 50 → distance_score d2 < distance_score d1) ∧
    (50 ≤ d1 → distance_score d1 = 0 ∧ distance_score d2 = 0) ∧
    distance_score 0 = 100 := by
  refine ⟨?_, ?_, ?_⟩
  · intro h50
    have hpos : (0 : ℚ) < 100 - d1 * 2 := by linarith
    show max 0 (100 - d2 * 2) < max 0 (100 - d1 * 2)
    rw [max_eq_right hpos.le]
    exact max_lt hpos (by linarith)
  · intro h50
    constructor
    · show max 0 (100 - d1 * 2) = 0
      rw [max_eq_left (by linarith)]
    · show max 0 (100 - d2 * 2) = 0
      rw [max_eq_left (by linarith)]
  · show max 0 (100 - 0 * 2) = 100
    rw [max_eq_right (by norm_num)]
    norm_num

/-- Witness for C9: at distances 5 < 10 the score strictly drops. -/
theorem C9_distance_witness : distance_score 10 < distance_score 5 :=
  (C9_distance_score_monotonicity 5 10 (by norm_num)).1 (by norm_num)

/-! ## Claim C10: coordinate validation -/

/-- Claim C10 counterexample: with latitude 200 (far outside [-90, 90])
the distance calculator still returns a computed value — it raises no
validation error, for any implementation of the trigonometric library
routines (here the identity function). -/
theorem C10_counterexample :
    isOkE (calculate_distance (fun x => x) (fun x => x) (fun x => x)
      (fun x => x) (fun x => x) 200 0 0 0) = true ∧
    ¬ ((200 : ℚ) ≤ 90) := by
  exact ⟨rfl, by norm_num⟩

/-- Claim C10 (amended): `calculate_distance` contains no range check —
for every input, in-range or not, and every choice of the float library
routines it returns a computed distance and never a validation error;
the coordinate ranges are enforced instead by the `SOSRequestBase`
request model, which accepts exactly lat ∈ [-90, 90], lon ∈ [-180, 180]
(and people ≥ 1) and rejects anything else rather than clamping. -/
theorem C10_no_validation_in_calculator :
    (∀ (radiansF sinF cosF asinF sqrtF : ℚ → ℚ) (lat1 lon1 lat2 lon2 : ℚ),
       isOkE (calculate_distance radiansF sinF cosF asinF sqrtF
         lat1 lon1 lat2 lon2) = true) ∧
    (∀ (people : Int) (lon lat : ℚ),
       sosRequestBaseValid people lon lat = true ↔
         (1 ≤ people ∧ -180 ≤ lon ∧ lon ≤ 180 ∧ -90 ≤ lat ∧ lat ≤ 90)) := by
  constructor
  · intro radiansF sinF cosF asinF sqrtF lat1 lon1 lat2 lon2
    rfl
  · intro people lon lat
    simp [sosRequestBaseValid, and_assoc]

/-! ## Claim C2: the Accept guards -/

/-- Claim C2 counterexample: Accept on a never-proposed ticket (state
Pending, no assigned organization) by organization "org1" fails with
MismatchedAssignee, not with the InvalidState the claim requires — the
source checks the organization before the status. -/
theorem C2_counterexample :
    tNew.status = Status.pending ∧ tNew.assigned_organization = none ∧
    accept_assignment tNew (some "org1") none 0
      = Except.error AcceptError.mismatchedAssignee :=
  ⟨rfl, rfl, rfl⟩

/-- Claim C2 (amended): Accept succeeds exactly from Pending Assignment
with the matching organization and, when `assignment_time` is set, at
most 300 seconds after it; the organization check precedes the state
check, so on a never-proposed ticket a caller supplying an organization
id gets MismatchedAssignee (InvalidState arises only when the supplied
organization matches, e.g. both absent); 301 seconds or more after
`assignment_time` the failure is WindowExpired; on success the status
becomes In Progress, `accepted_at` is now and `estimated_completion`
comes from the caller. -/
theorem C2_accept_characterization (t : Ticket) (orgId : Option String)
    (est : Option Nat) (now : Nat) :
    (orgId ≠ t.assigned_organization →
       accept_assignment t orgId est now
         = Except.error AcceptError.mismatchedAssignee) ∧
    (orgId = t.assigned_organization → t.status ≠ Status.pendingAssignment →
       accept_assignment t orgId est now
         = Except.error AcceptError.invalidState) ∧
    (orgId = t.assigned_organization → t.status = Status.pendingAssignment →
       ∀ t0, t.assignment_time = some t0 → (now : Int) - (t0 : Int) > 300 →
       accept_assignment t orgId est now
         = Except.error AcceptError.windowExpired) ∧
    (orgId = t.assigned_organization → t.status = Status.pendingAssignment →
       (∀ t0, t.assignment_time = some t0 → (now : Int) - (t0 : Int) ≤ 300) →
       accept_assignment t orgId est now
         = Except.ok ({ t with
             status := Status.inProgress, estimated_completion := est,
             accepted_at := some now, updated_at := now }, [])) ∧
    (∀ t' recs, accept_assignment t orgId est now = Except.ok (t', recs) →
       orgId = t.assigned_organization ∧ t.status = Status.pendingAssignment ∧
       (∀ t0, t.assignment_time = some t0 → (now : Int) - (t0 : Int) ≤ 300) ∧
       t'.status = Status.inProgress ∧ t'.accepted_at = some now ∧
       t'.estimated_completion = est ∧ recs = []) := by
  refine ⟨?_, ?_, ?_, ?_, ?_⟩
  · intro h
    unfold accept_assignment
    rw [if_pos (Ne.symm h)]
  · intro h hs
    unfold accept_assignment
    rw [if_neg (not_ne_iff.mpr h.symm), if_pos hs]
  · intro h hs t0 ht hw
    unfold accept_assignment
    rw [if_neg (not_ne_iff.mpr h.symm), if_neg (not_ne_iff.mpr hs)]
    simp only [ht]
    rw [if_pos hw]
  · intro h hs hw
    unfold accept_assignment
    rw [if_neg (not_ne_iff.mpr h.symm), if_neg (not_ne_iff.mpr hs)]
    cases ht : t.assignment_time with
    | none => simp
    | some t0 =>
        simp only []
        rw [if_neg (not_lt.mpr (hw t0 ht))]
  · intro t' recs h
    unfold accept_assignment at h
    by_cases h1 : t.assigned_organization ≠ orgId
    · rw [if_pos h1] at h
      exact absurd h (by simp)
    · rw [if_neg h1] at h
      have horg : orgId = t.assigned_organization := (not_ne_iff.mp h1).symm
      by_cases h2 : t.status ≠ Status.pendingAssignment
      · rw [if_pos h2] at h
        exact absurd h (by simp)
      · rw [if_neg h2] at h
        have hst : t.status = Status.pendingAssignment := not_ne_iff.mp h2
        cases ht : t.assignment_time with
        | none =>
            rw [ht] at h
            simp only [Except.ok.injEq, Prod.mk.injEq] at h
            refine ⟨horg, hst, ?_, ?_, ?_, ?_, h.2.symm⟩
            · intro t0 ht0
              exact absurd ht0 (by simp)
            · rw [← h.1]
            · rw [← h.1]
            · rw [← h.1]
        | some t0 =>
            rw [ht] at h
            simp only [] at h
            by_cases h3 : (now : Int) - (t0 : Int) > 300
            · rw [if_pos h3] at h
              exact absurd h (by simp)
            · rw [if_neg h3] at h
              simp only [Except.ok.injEq, Prod.mk.injEq] at h
              refine ⟨horg, hst, ?_, ?_, ?_, ?_, h.2.symm⟩
              · intro t1 ht1
                cases ht1
                exact not_lt.mp h3
              · rw [← h.1]
              · rw [← h.1]
              · rw [← h.1]

/-- Witness for C2: a concrete accept inside the window succeeds with
the expected field updates. -/
theorem C2_accept_witness :
    accept_assignment tPA (some "org1") (some 500) 100
      = Except.ok ({ tPA with
          status := Status.inProgress, estimated_completion := some 500,
          accepted_at := some 100, updated_at := 100 }, []) :=
  (C2_accept_characterization tPA (some "org1") (some 500) 100).2.2.2.1
    rfl rfl (by intro t0 ht0; cases ht0; norm_num)

/-! ## Claim C3: the Reject guards -/

/-- The ticket produced by a successful rejection: everything assigned
is cleared, the timer anchor dropped, the status back to Pending. -/
def clearedOf (t : Ticket) (now : Nat) : Ticket :=
  { t with
      status := Status.pending,
      assigned_organization := none,
      assigned_to := none,
      assigned_division := none,
      assignment_time := none,
      updated_at := now }

/-- Claim C3 counterexample: Reject by the assigned organization on a
ticket that is In Progress (not Pending Assignment) succeeds and resets
the ticket to Pending — the source never checks the status, where the
claim requires an InvalidState failure. -/
theorem C3_counterexample :
    tIP.status = Status.inProgress ∧
    reject_assignment tIP (some "org1") 20
      = Except.ok (clearedOf tIP 20, []) :=
  ⟨rfl, rfl⟩

/-- Claim C3 (amended): Reject checks only the organization: a
non-assigned organization fails with MismatchedAssignee, and a matching
organization succeeds from any state (no InvalidState exists for
Reject). On success all assigned_* fields and `assignment_time` are
cleared and the status becomes Pending; the immediately scheduled
background reassignment then assigns the scorer's recommended
organization directly to In Progress when a candidate exists, and
leaves the ticket Pending and unassigned otherwise. -/
theorem C3_reject_characterization (t : Ticket) (orgId : Option String)
    (d : ℚ) (orgs : List Org) (staffPool : List Staff) (now : Nat) :
    (orgId ≠ t.assigned_organization →
       reject_assignment t orgId now
         = Except.error RejectError.mismatchedAssignee) ∧
    (orgId = t.assigned_organization →
       reject_assignment t orgId now = Except.ok (clearedOf t now, [])) ∧
    (orgId = t.assigned_organization →
       reject_then_reassign t orgId d orgs staffPool now
         = Except.ok (match (get_best_org t.category d orgs).1 with
             | some o => { clearedOf t now with
                 assigned_organization := some o.id,
                 assigned_to :=
                   ((get_best_staff t.category d staffPool).1).map Staff.id,
                 status := Status.inProgress, updated_at := now }
             | none => clearedOf t now, [])) := by
  refine ⟨?_, ?_, ?_⟩
  · intro h
    unfold reject_assignment
    rw [if_pos (Ne.symm h)]
  · intro h
    unfold reject_assignment
    rw [if_neg (not_ne_iff.mpr h.symm)]
    rfl
  · intro h
    have hr : reject_assignment t orgId now = Except.ok (clearedOf t now, []) := by
      unfold reject_assignment
      rw [if_neg (not_ne_iff.mpr h.symm)]
      rfl
    cases hbo : (get_best_org t.category d orgs).1 with
    | none =>
        simp only [reject_then_reassign, hr, Except.map,
          reassign_to_next_best_team, clearedOf, hbo, List.nil_append]
    | some o =>
        simp only [reject_then_reassign, hr, Except.map,
          reassign_to_next_best_team, clearedOf, hbo, List.nil_append]

/-- Witness for C3: rejecting the concrete pending-assignment ticket by
its assigned organization succeeds and clears the assignment. -/
theorem C3_reject_witness :
    reject_assignment tPA (some "org1") 50 = Except.ok (clearedOf tPA 50, []) :=
  (C3_reject_characterization tPA (some "org1") 0 [] [] 50).2.1 rfl

/-! ## Claim C1: the timer callback -/

/-- At distance 0 the distanceScore is exactly 100. -/
lemma distance_score_zero : distance_score 0 = 100 := by
  show max 0 (100 - 0 * 2) = 100
  rw [max_eq_right (by norm_num)]
  norm_num

/-- The concrete relief organization scores 85 against a medical
emergency at distance 0. -/
lemma demoOrg_score :
    orgTotalScore "Medical Emergency" 0 demoOrg = 85 := by
  have htm : type_match_score "Relief" "Medical Emergency" = 50 :=
    type_match_score_of_false (by decide)
  show distance_score 0 * 0.4 + capacity_score 50 0 * 0.3 +
    type_match_score "Relief" "Medical Emergency" * 0.3 = 85
  rw [distance_score_zero, htm]
  norm_num [capacity_score]

/-- The scorer recommends the concrete relief organization for a
medical emergency at distance 0. -/
lemma get_best_org_demo :
    get_best_org "Medical Emergency" 0 [demoOrg] = (some demoOrg, 85) := by
  have hfil : orgFilter [demoOrg] = [demoOrg] := rfl
  unfold get_best_org
  rw [hfil]
  unfold selectBest
  rw [List.foldl_cons, List.foldl_nil]
  rw [if_pos (by rw [demoOrg_score]; norm_num), demoOrg_score]

/-- Claim C1 (code bug): the timer callback tests `status == "Pending"`,
but an unaccepted proposal has status "Pending Assignment", so the
firing is a no-op on the very tickets it exists for — even though a
candidate is available — and no history records are written; when the
callback does act (status "Pending") it jumps straight to In Progress
with no revert-to-Pending/re-propose pair and still appends nothing.
There is no epoch parameter anywhere in the source. -/
theorem C1_timer_fire_is_noop_on_pending_assignment :
    auto_reassign_emergency (some tPA) 0 [demoOrg] [] 300 = (some tPA, []) ∧
    tPA.status = Status.pendingAssignment ∧
    (get_best_org tPA.category 0 [demoOrg]).1 = some demoOrg ∧
    auto_reassign_emergency (some tNew) 0 [demoOrg] [] 300
      = (some { tNew with
          assigned_organization := some "org2", assigned_to := none,
          status := Status.inProgress, updated_at := 300 }, []) := by
  have hbo : (get_best_org "Medical Emergency" 0 [demoOrg]).1 = some demoOrg := by
    rw [get_best_org_demo]
  refine ⟨rfl, rfl, hbo, ?_⟩
  have hre : reassign_to_next_best_team tNew 0 [demoOrg] [] 300
      = ({ tNew with
          assigned_organization := some "org2", assigned_to := none,
          status := Status.inProgress, updated_at := 300 }, []) := by
    unfold reassign_to_next_best_team
    rw [show tNew.category = "Medical Emergency" from rfl, hbo]
    rfl
  simp only [auto_reassign_emergency]
  rw [if_pos (show tNew.status = Status.pending from rfl)]
  simp only [hre]

/-! ## Claim C4: assigned fields at creation -/

/-- The nearest-step loop never moves off an accumulator that already
holds the shared distance. -/
lemma constDistFold {α : Type} (d : ℚ) (l : List α) (a : α) :
    l.foldl (nearestStep d) (some a, some d) = (some a, some d) := by
  induction l with
  | nil => rfl
  | cons x xs ih =>
      rw [List.foldl_cons,
        show nearestStep d (some a, some d) x = (some a, some d) from
          if_neg (lt_irrefl d)]
      exact ih

/-- With all distances equal, the nearest-candidate loop returns the
first list element. -/
lemma foldl_nearest_head {α : Type} (d : ℚ) (l : List α) :
    (l.foldl (nearestStep d) ((none : Option α), (none : Option ℚ))).1
      = l.head? := by
  cases l with
  | nil => rfl
  | cons x xs =>
      rw [List.foldl_cons,
        show nearestStep d ((none : Option α), (none : Option ℚ)) x
          = (some x, some d) from rfl,
        constDistFold]
      rfl

/-- `find_nearest_organization` returns the first active organization. -/
lemma find_nearest_organization_head (d : ℚ) (orgs : List Org) :
    find_nearest_organization d orgs
      = (orgs.filter (fun o => o.status == "Active")).head? := by
  unfold find_nearest_organization
  rw [foldl_nearest_head]

/-- `find_nearest_staff` returns the first staff member passing the
category filter. -/
lemma find_nearest_staff_head (d : ℚ) (category : String)
    (staffPool : List Staff) :
    find_nearest_staff d category staffPool
      = (createStaffFilter category staffPool).head? := by
  unfold find_nearest_staff
  rw [foldl_nearest_head]

/-- Claim C4 counterexample: creating a ticket while one active
organization exists yields status Pending with a non-null
assigned_organization, violating the claimed invariant and the claim
that CreateTicket leaves all assigned_* fields null. -/
theorem C4_counterexample :
    (create_sos_request demoCreate 0 [demoOrg] [] "t9" 0).1.status
      = Status.pending ∧
    (create_sos_request demoCreate 0 [demoOrg] [] "t9" 0).1.assigned_organization
      = some "org2" :=
  ⟨rfl, rfl⟩

/-- Claim C4 (amended): a ticket produced by CreateTicket always has
status Pending and a null assigned_division, but its
assigned_organization is the id of the first active organization (null
only when there is none) and its assigned_to the id of the first staff
member passing the category filter (null only when there is none); so
assigned references can be non-null in state Pending and the claimed
invariant does not hold. -/
theorem C4_create_characterization (data : SOSCreate) (d : ℚ)
    (orgs : List Org) (staffPool : List Staff) (newId : String) (now : Nat) :
    (create_sos_request data d orgs staffPool newId now).1.status
      = Status.pending ∧
    (create_sos_request data d orgs staffPool newId now).1.assigned_division
      = none ∧
    (create_sos_request data d orgs staffPool newId now).1.assigned_organization
      = ((orgs.filter (fun o => o.status == "Active")).head?).map Org.id ∧
    (create_sos_request data d orgs staffPool newId now).1.assigned_to
      = ((createStaffFilter data.category staffPool).head?).map Staff.id := by
  refine ⟨rfl, rfl, ?_, ?_⟩
  · show (find_nearest_organization d orgs).map Org.id = _
    rw [find_nearest_organization_head]
  · show (find_nearest_staff d data.category staffPool).map Staff.id = _
    rw [find_nearest_staff_head]

/-! ## Claim C7: the organization score formula -/

/-- Modelled from the claim's words: organization score =
0.4·max(0, 100 − 2·distance) + 0.3·capacityScore + 0.3·categoryMatch,
with capacityScore = (capacity − current_load)/capacity·100 taken as 0
when the capacity is 0, and categoryMatch 100 on case-insensitive
containment of the organization category in the ticket category,
else 50. -/
def claimOrgScore (sosCategory : String) (d : ℚ) (o : Org) : ℚ :=
  0.4 * max 0 (100 - 2 * d)
    + 0.3 * (if o.capacity = 0 then 0
        else ((o.capacity : ℚ) - (o.current_load : ℚ)) / (o.capacity : ℚ) * 100)
    + 0.3 * (if pyInStr (lowerStr o.category) (lowerStr sosCategory)
        then 100 else 50)

/-- Claim C7 (confirmed): for every candidate organization — one that
passes the scorer's `current_load < capacity` filter with a nonnegative
load, so that its capacity is nonzero and the claim's zero-capacity
guard is never exercised — the source's score coincides with the
claim's formula; and in the spec's end-to-end scenario (category
"Medical Emergency", distance 0, capacity 100, load 20, category
"Medical") the score is 94 and that organization is the proposed
assignment. -/
theorem C7_org_score_formula :
    (∀ (sosCategory : String) (d : ℚ) (o : Org),
       0 ≤ o.current_load → o.current_load < o.capacity →
       orgTotalScore sosCategory d o = claimOrgScore sosCategory d o) ∧
    orgTotalScore "Medical Emergency" 0 medOrg = 94 ∧
    get_best_org "Medical Emergency" 0 [medOrg] = (some medOrg, 94) := by
  have hmed : orgTotalScore "Medical Emergency" 0 medOrg = 94 := by
    have htm : type_match_score "Medical" "Medical Emergency" = 100 :=
      type_match_score_of_true (by decide)
    show distance_score 0 * 0.4 + capacity_score 100 20 * 0.3 +
      type_match_score "Medical" "Medical Emergency" * 0.3 = 94
    rw [distance_score_zero, htm]
    norm_num [capacity_score]
  refine ⟨?_, hmed, ?_⟩
  · intro sosCategory d o h0 hlt
    have hcap : o.capacity ≠ 0 := by omega
    unfold orgTotalScore claimOrgScore distance_score capacity_score
      type_match_score
    rw [if_neg hcap, show (100 : ℚ) - d * 2 = 100 - 2 * d by ring]
    ring
  · have hfil : orgFilter [medOrg] = [medOrg] := rfl
    unfold get_best_org
    rw [hfil]
    unfold selectBest
    rw [List.foldl_cons, List.foldl_nil,
      if_pos (show ((none : Option Org), (0 : ℚ)).2
          < orgTotalScore "Medical Emergency" 0 medOrg by
        rw [hmed]; norm_num),
      hmed]

/-- Witness for C7: the formula equivalence applied at a concrete
organization with nonzero capacity headroom. -/
theorem C7_org_score_witness :
    orgTotalScore "Flood" 3 medOrg = claimOrgScore "Flood" 3 medOrg :=
  C7_org_score_formula.1 "Flood" 3 medOrg (by decide) (by decide)

/-! ## Claim C5: the change-history log -/

/-- The background reassignment writes no history rows. -/
lemma reassign_recs_nil (t : Ticket) (d : ℚ) (orgs : List Org)
    (staffPool : List Staff) (now : Nat) :
    (reassign_to_next_best_team t d orgs staffPool now).2 = [] := by
  unfold reassign_to_next_best_team
  cases hbo : (get_best_org t.category d orgs).1 <;> rfl

/-- Claim C5 counterexample: a successful Accept changes the status and
`accepted_at` of the concrete ticket yet appends zero change-history
records, refuting one-record-per-changed-field for Accept. -/
theorem C5_counterexample :
    accept_assignment tPA (some "org1") (some 500) 100
      = Except.ok (tAcc, []) ∧
    tAcc.status ≠ tPA.status ∧ tAcc.accepted_at ≠ tPA.accepted_at :=
  ⟨rfl, by decide, by decide⟩

/-- Claim C5 (amended): only ManualEdit appends change-history records,
and only for the fields status, assigned_to and notes — exactly one
record per changed field among those three, none for the other edited
fields; Accept, Reject, Propose and the timer reassignment append no
records at all; and every operation only ever appends to the existing
history, never mutating or deleting records already written. -/
theorem C5_history_behavior :
    (∀ (t : Ticket) (u : SOSRequestUpdate) (now : Nat),
       ((update_sos_request t u now).2).length
         = ((if (update_sos_request t u now).1.status ≠ t.status then 1 else 0)
           + (if (update_sos_request t u now).1.assigned_to ≠ t.assigned_to
                then 1 else 0)
           + (if (update_sos_request t u now).1.notes ≠ t.notes then 1 else 0))
       ∧ ∀ r ∈ (update_sos_request t u now).2,
           r.field_name = "status" ∨ r.field_name = "assigned_to"
             ∨ r.field_name = "notes") ∧
    (∀ (t : Ticket) (orgId : Option String) (est : Option Nat) (now : Nat)
       (t' : Ticket) (recs : List TicketUpdate),
       accept_assignment t orgId est now = Except.ok (t', recs) → recs = []) ∧
    (∀ (t : Ticket) (orgId : Option String) (now : Nat)
       (t' : Ticket) (recs : List TicketUpdate),
       reject_assignment t orgId now = Except.ok (t', recs) → recs = []) ∧
    (∀ (t : Ticket) (orgId staffId divId : Option String) (now : Nat),
       (assign_emergency t orgId staffId divId now).2 = []) ∧
    (∀ (t? : Option Ticket) (d : ℚ) (orgs : List Org)
       (staffPool : List Staff) (now : Nat),
       (auto_reassign_emergency t? d orgs staffPool now).2 = []) ∧
    (∀ (cfg : Ticket × List TicketUpdate) (op : Op) (d : ℚ)
       (orgs : List Org) (staffPool : List Staff) (now : Nat),
       ∃ l, (stepSys cfg op d orgs staffPool now).2 = cfg.2 ++ l) := by
  refine ⟨?_, ?_, ?_, ?_, ?_, ?_⟩
  · intro t u now
    constructor
    · simp only [update_sos_request]
      split_ifs <;> simp_all
    · intro r hr
      simp only [update_sos_request] at hr
      split_ifs at hr <;> simp_all <;> aesop
  · intro t orgId est now t' recs h
    unfold accept_assignment at h
    by_cases h1 : t.assigned_organization ≠ orgId
    · rw [if_pos h1] at h
      exact absurd h (by simp)
    · rw [if_neg h1] at h
      by_cases h2 : t.status ≠ Status.pendingAssignment
      · rw [if_pos h2] at h
        exact absurd h (by simp)
      · rw [if_neg h2] at h
        cases ht : t.assignment_time with
        | none =>
            rw [ht] at h
            simp only [Except.ok.injEq, Prod.mk.injEq] at h
            exact h.2.symm
        | some t0 =>
            rw [ht] at h
            simp only [] at h
            by_cases h3 : (now : Int) - (t0 : Int) > 300
            · rw [if_pos h3] at h
              exact absurd h (by simp)
            · rw [if_neg h3] at h
              simp only [Except.ok.injEq, Prod.mk.injEq] at h
              exact h.2.symm
  · intro t orgId now t' recs h
    unfold reject_assignment at h
    by_cases h1 : t.assigned_organization ≠ orgId
    · rw [if_pos h1] at h
      exact absurd h (by simp)
    · rw [if_neg h1] at h
      simp only [Except.ok.injEq, Prod.mk.injEq] at h
      exact h.2.symm
  · intro t orgId staffId divId now
    rfl
  · intro t? d orgs staffPool now
    cases t? with
    | none => rfl
    | some t =>
        simp only [auto_reassign_emergency]
        split_ifs with h1
        · exact reassign_recs_nil t d orgs staffPool now
        · rfl
  · intro cfg op d orgs staffPool now
    cases op with
    | propose orgId staffId divId => exact ⟨[], rfl⟩
    | accept orgId est =>
        cases h : accept_assignment cfg.1 orgId est now with
        | ok r =>
            refine ⟨r.2, ?_⟩
            simp only [stepSys, h]
        | error e =>
            refine ⟨[], ?_⟩
            simp only [stepSys, h, List.append_nil]
    | reject orgId =>
        cases h : reject_assignment cfg.1 orgId now with
        | ok r =>
            refine ⟨r.2, ?_⟩
            simp only [stepSys, h]
        | error e =>
            refine ⟨[], ?_⟩
            simp only [stepSys, h, List.append_nil]
    | timerFire =>
        exact ⟨(auto_reassign_emergency (some cfg.1) d orgs staffPool now).2, rfl⟩
    | reassignTask =>
        exact ⟨(reassign_to_next_best_team cfg.1 d orgs staffPool now).2, rfl⟩
    | manualEdit u =>
        exact ⟨(update_sos_request cfg.1 u now).2, rfl⟩

/-- Witness for C5: the Accept part of the theorem applied to the
concrete in-window acceptance. -/
theorem C5_history_witness : ([] : List TicketUpdate) = [] :=
  C5_history_behavior.2.1 tPA (some "org1") (some 500) 100 tAcc [] rfl

/-! ## Claim C6: selection discipline of the scorer -/

/-- Full characterization of the strict-improvement selection loop:
either no element strictly beats the accumulator (the fold returns it
unchanged), or the fold returns the first element attaining the
maximal score — every earlier element scores strictly less, every
later one at most as much. -/
lemma selectBest_go {α : Type} (score : α → ℚ) (l : List α)
    (acc : Option α × ℚ) :
    (List.foldl (fun a o => if a.2 < score o then (some o, score o) else a)
        acc l = acc ∧ ∀ b ∈ l, score b ≤ acc.2) ∨
    (∃ a l1 l2, l = l1 ++ a :: l2
      ∧ List.foldl (fun a o => if a.2 < score o then (some o, score o) else a)
          acc l = (some a, score a)
      ∧ acc.2 < score a
      ∧ (∀ b ∈ l1, score b < score a)
      ∧ (∀ b ∈ l2, score b ≤ score a)) := by
  induction l generalizing acc with
  | nil => exact Or.inl ⟨rfl, by simp⟩
  | cons x xs ih =>
      rw [List.foldl_cons]
      by_cases hx : acc.2 < score x
      · rw [if_pos hx]
        rcases ih (some x, score x) with ⟨heq, hle⟩ |
          ⟨a, l1, l2, hsplit, heq, hgt, hl1, hl2⟩
        · refine Or.inr ⟨x, [], xs, by simp, heq, hx, by simp, ?_⟩
          intro b hb
          simpa using hle b hb
        · refine Or.inr ⟨a, x :: l1, l2, by simp [hsplit], heq,
            lt_trans hx hgt, ?_, hl2⟩
          intro b hb
          rcases List.mem_cons.mp hb with hbx | hbl
          · subst hbx
            exact hgt
          · exact hl1 b hbl
      · rw [if_neg hx]
        rcases ih acc with ⟨heq, hle⟩ |
          ⟨a, l1, l2, hsplit, heq, hgt, hl1, hl2⟩
        · refine Or.inl ⟨heq, ?_⟩
          intro b hb
          rcases List.mem_cons.mp hb with hbx | hbl
          · subst hbx
            exact not_lt.mp hx
          · exact hle b hbl
        · refine Or.inr ⟨a, x :: l1, l2, by simp [hsplit], heq, hgt, ?_, hl2⟩
          intro b hb
          rcases List.mem_cons.mp hb with hbx | hbl
          · subst hbx
            exact lt_of_le_of_lt (not_lt.mp hx) hgt
          · exact hl1 b hbl

/-- Every organization the query filter lets through (with a
nonnegative load) has a strictly positive total score. -/
lemma orgTotalScore_pos (sosCategory : String) (d : ℚ) (o : Org)
    (h0 : 0 ≤ o.current_load) (hlt : o.current_load < o.capacity) :
    0 < orgTotalScore sosCategory d o := by
  have hds : (0 : ℚ) ≤ distance_score d := le_max_left 0 _
  have hcap : (0 : ℚ) < (o.capacity : ℚ) := by
    exact_mod_cast lt_of_le_of_lt h0 hlt
  have hnum : (0 : ℚ) < (o.capacity : ℚ) - (o.current_load : ℚ) := by
    have : (o.current_load : ℚ) < (o.capacity : ℚ) := by exact_mod_cast hlt
    linarith
  have hcs : (0 : ℚ) < capacity_score o.capacity o.current_load := by
    unfold capacity_score
    have := div_pos hnum hcap
    linarith
  have htm : (50 : ℚ) ≤ type_match_score o.category sosCategory := by
    unfold type_match_score
    split <;> norm_num
  unfold orgTotalScore
  linarith

/-- Every staff member has a strictly positive total score. -/
lemma staffTotalScore_pos (sosCategory : String) (d : ℚ) (s : Staff) :
    0 < staffTotalScore sosCategory d s := by
  have hds : (0 : ℚ) ≤ max 0 (100 - d * 3) := le_max_left 0 _
  have hsm : (50 : ℚ) ≤ skills_match_score s.skills sosCategory := by
    unfold skills_match_score
    split <;> norm_num
  unfold staffTotalScore
  linarith

/-- Claim C6 counterexample: two candidates with exactly equal scores,
the one with the greater identifier listed first — the scorer keeps the
first-listed candidate "b", not the lowest identifier "a" the claim
requires. -/
theorem C6_counterexample :
    orgTotalScore "Flood" 0 oTieB = orgTotalScore "Flood" 0 oTieA ∧
    oTieA.id.data < oTieB.id.data ∧
    (get_best_org "Flood" 0 [oTieB, oTieA]).1 = some oTieB := by
  have hsB : orgTotalScore "Flood" 0 oTieB = 85 := by
    have htm : type_match_score "Relief" "Flood" = 50 :=
      type_match_score_of_false (by decide)
    show distance_score 0 * 0.4 + capacity_score 10 0 * 0.3 +
      type_match_score "Relief" "Flood" * 0.3 = 85
    rw [distance_score_zero, htm]
    norm_num [capacity_score]
  have hsA : orgTotalScore "Flood" 0 oTieA = 85 := by
    have htm : type_match_score "Relief" "Flood" = 50 :=
      type_match_score_of_false (by decide)
    show distance_score 0 * 0.4 + capacity_score 10 0 * 0.3 +
      type_match_score "Relief" "Flood" * 0.3 = 85
    rw [distance_score_zero, htm]
    norm_num [capacity_score]
  refine ⟨by rw [hsB, hsA], by decide, ?_⟩
  have hfil : orgFilter [oTieB, oTieA] = [oTieB, oTieA] := rfl
  unfold get_best_org
  rw [hfil]
  unfold selectBest
  rw [List.foldl_cons,
    if_pos (show ((none : Option Org), (0 : ℚ)).2
        < orgTotalScore "Flood" 0 oTieB by rw [hsB]; norm_num),
    List.foldl_cons, List.foldl_nil,
    if_neg (show ¬ (some oTieB, orgTotalScore "Flood" 0 oTieB).2
        < orgTotalScore "Flood" 0 oTieA by
      rw [show (some oTieB, orgTotalScore "Flood" 0 oTieB).2
          = orgTotalScore "Flood" 0 oTieB from rfl, hsB, hsA]
      exact lt_irrefl 85)]

/-- Claim C6 (amended): the organization and staff selectors return
`none` (and score 0) on an empty filtered candidate set, never an
error; on a nonempty filtered set they return the candidate with the
maximal score, exact ties being broken in favour of the earliest
candidate in the supplied order (every candidate before the winner
scores strictly less, every one after at most as much) — not by lowest
identifier; and as pure functions they trivially give the same winner
on the same inputs. -/
theorem C6_selector_characterization (sosCategory : String) (d : ℚ)
    (orgs : List Org) (staffPool : List Staff)
    (hload : ∀ o ∈ orgs, 0 ≤ o.current_load) :
    (orgFilter orgs = [] → get_best_org sosCategory d orgs = (none, 0)) ∧
    (orgFilter orgs ≠ [] →
      ∃ a l1 l2, orgFilter orgs = l1 ++ a :: l2
        ∧ get_best_org sosCategory d orgs
            = (some a, orgTotalScore sosCategory d a)
        ∧ (∀ b ∈ l1,
            orgTotalScore sosCategory d b < orgTotalScore sosCategory d a)
        ∧ (∀ b ∈ l2,
            orgTotalScore sosCategory d b ≤ orgTotalScore sosCategory d a)) ∧
    (smartStaffFilter sosCategory staffPool = [] →
      get_best_staff sosCategory d staffPool = (none, 0)) ∧
    (smartStaffFilter sosCategory staffPool ≠ [] →
      ∃ a l1 l2, smartStaffFilter sosCategory staffPool = l1 ++ a :: l2
        ∧ get_best_staff sosCategory d staffPool
            = (some a, staffTotalScore sosCategory d a)
        ∧ (∀ b ∈ l1,
            staffTotalScore sosCategory d b < staffTotalScore sosCategory d a)
        ∧ (∀ b ∈ l2,
            staffTotalScore sosCategory d b
              ≤ staffTotalScore sosCategory d a)) := by
  have horg := selectBest_go (orgTotalScore sosCategory d) (orgFilter orgs)
    ((none : Option Org), (0 : ℚ))
  have hstaff := selectBest_go (staffTotalScore sosCategory d)
    (smartStaffFilter sosCategory staffPool) ((none : Option Staff), (0 : ℚ))
  refine ⟨?_, ?_, ?_, ?_⟩
  · intro hnil
    rcases horg with ⟨heq, _⟩ | ⟨a, l1, l2, hsplit, _, _, _, _⟩
    · exact heq
    · rw [hnil] at hsplit
      exact absurd hsplit (by simp)
  · intro hne
    rcases horg with ⟨heq, hle⟩ | ⟨a, l1, l2, hsplit, heq, hgt, hl1, hl2⟩
    · obtain ⟨x, hx⟩ := List.exists_mem_of_ne_nil (orgFilter orgs) hne
      have hx' : x ∈ orgs ∧ (x.status == "Active"
          && decide (x.current_load < x.capacity)) = true :=
        List.mem_filter.mp hx
      have hlt : x.current_load < x.capacity := by
        have hand : x.status = "Active" ∧ x.current_load < x.capacity := by
          simpa using hx'.2
        exact hand.2
      have hpos := orgTotalScore_pos sosCategory d x (hload x hx'.1) hlt
      exact absurd (hle x hx) (not_le.mpr hpos)
    · exact ⟨a, l1, l2, hsplit, heq, hl1, hl2⟩
  · intro hnil
    rcases hstaff with ⟨heq, _⟩ | ⟨a, l1, l2, hsplit, _, _, _, _⟩
    · exact heq
    · rw [hnil] at hsplit
      exact absurd hsplit (by simp)
  · intro hne
    rcases hstaff with ⟨heq, hle⟩ | ⟨a, l1, l2, hsplit, heq, hgt, hl1, hl2⟩
    · obtain ⟨x, hx⟩ := List.exists_mem_of_ne_nil
        (smartStaffFilter sosCategory staffPool) hne
      have hpos := staffTotalScore_pos sosCategory d x
      exact absurd (hle x hx) (not_le.mpr hpos)
    · exact ⟨a, l1, l2, hsplit, heq, hl1, hl2⟩

/-- Witness for C6: on an empty candidate pool the selector returns no
recommendation and no error. -/
theorem C6_selector_witness : get_best_org "Flood" 0 [] = (none, 0) :=
  (C6_selector_characterization "Flood" 0 [] [] (by simp)).1 rfl

end Hwi
